import Mathlib

set_option maxRecDepth 100000

/-!
Shallow embedding of the PicoLogger CAPSENSE sensor hub
(`src/PicoLogger/main.py` and `src/PicoLogger/capsense.py`).

Pure Python string/integer operations are translated to structural
Lean functions over `List Char` / `Int` / `Nat` so that every
definition evaluates inside the kernel.  Python float arithmetic is
modelled exactly, with each float value represented as a rational
numerator/denominator pair of integers.  Stateful code (the global
`logging_status` record, the log file, the LED) is modelled by
explicit state passing; fallible operations take their outcomes from
an explicit environment so that every exception path of the source is
represented.
-/

namespace PicoLogger

/-! ## Python string and number primitives -/

/-- Python `str.split(sep)` for a single-character separator, on char lists. -/
def splitCh (c : Char) : List Char → List (List Char)
  | [] => [[]]
  | d :: rest =>
    match splitCh c rest with
    | [] => [[]]
    | h :: t => if d = c then [] :: h :: t else (d :: h) :: t

/-- Python `str.split(sep)` for a single-character separator. -/
def pySplit (s : String) (c : Char) : List String :=
  (splitCh c s.data).map String.mk

/-- Digit-string to number; `none` when empty or containing a non-digit. -/
def digitsToNat? : List Char → Option Nat
  | [] => none
  | l => l.foldl
      (fun acc c => match acc with
        | none => none
        | some n => if c.isDigit then some (n * 10 + (c.toNat - 48)) else none)
      (some 0)

/-- Python `int(s)` on the string forms this program feeds it:
an optional sign followed by decimal digits; `none` models the
`ValueError` raised on any other input. -/
def pyInt? (s : String) : Option Int :=
  match s.data with
  | '-' :: rest => (digitsToNat? rest).map (fun n => -(n : Int))
  | '+' :: rest => (digitsToNat? rest).map (fun n => (n : Int))
  | l => (digitsToNat? l).map (fun n => (n : Int))

/-- Python `float(s)` on plain decimal literals (optional sign, digits,
optional fractional part), returning the exact value as a
numerator/denominator pair; `none` models the `ValueError` on any
other input. -/
def pyFloat? (s : String) : Option (Int × Int) :=
  let core := fun (t : List Char) =>
    match splitCh '.' t with
    | [w] => (digitsToNat? w).map (fun n => ((n : Int), (1 : Int)))
    | [w, f] =>
      if w = [] && f = [] then none
      else if (w = [] || (digitsToNat? w).isSome) && (f = [] || (digitsToNat? f).isSome) then
        some ((((digitsToNat? w).getD 0 : Int) * (10 ^ f.length : Int) +
                ((digitsToNat? f).getD 0 : Int)), (10 ^ f.length : Int))
      else none
    | _ => none
  match s.data with
  | '-' :: rest => (core rest).map (fun p => (-p.1, p.2))
  | '+' :: rest => core rest
  | l => core l

/-- `pat` occurs at the head of `s`. -/
def startsWithCh : List Char → List Char → Bool
  | _, [] => true
  | [], _ :: _ => false
  | a :: as, b :: bs => a = b && startsWithCh as bs

/-- `pat` occurs somewhere in `s` (Python `pat in s`). -/
def containsSub (pat : List Char) : List Char → Bool
  | [] => startsWithCh [] pat
  | a :: rest => startsWithCh (a :: rest) pat || containsSub pat rest

/-- Python `pat in s` on strings. -/
def strContains (s pat : String) : Bool := containsSub pat.data s.data

/-- Python `s.replace(pat, rep)` (left to right, non-overlapping),
fuel-structural on the scanned length. -/
def replaceFuel (pat rep : List Char) : Nat → List Char → List Char
  | 0, l => l
  | _, [] => []
  | fuel + 1, a :: rest =>
    if startsWithCh (a :: rest) pat then
      rep ++ replaceFuel pat rep fuel (List.drop (pat.length - 1) rest)
    else a :: replaceFuel pat rep fuel rest

/-- Python `s.replace(pat, rep)`. -/
def pyReplace (s pat rep : String) : String :=
  String.mk (replaceFuel pat.data rep.data s.data.length s.data)

/-- Python `f"{n:0wd}"`: zero-pad a natural to width `w`. -/
def padNat (w : Nat) (m : Nat) : String :=
  let s := toString m
  String.mk (List.replicate (w - s.length) '0') ++ s

/-- Python `f"{n:0wd}"` on a possibly negative integer. -/
def padInt (w : Nat) (n : Int) : String :=
  if n < 0 then "-" ++ padNat (w - 1) (-n).toNat else padNat w n.toNat

/-- Number of comma-separated fields of a CSV line. -/
def countFields (s : String) : Nat := (pySplit s ',').length

/-- Floor of the rational `a / b` (`b` of either sign). -/
def ratFloor (a b : Int) : Int :=
  if b < 0 then Int.fdiv (-a) (-b) else Int.fdiv a b

/-! ## Session state (`logging_status`, main.py lines 13-19) -/

/-- The global `logging_status` dict. -/
structure LoggingStatus where
  active : Bool
  label : String
  start_time : Int
  duration : Int
  type : String
deriving DecidableEq, Repr

/-- Initial value of `logging_status` (main.py lines 13-19). -/
def logging_status_init : LoggingStatus :=
  { active := false, label := "", start_time := 0, duration := 0, type := "" }

/-! ## Capsense reader (`capsense.py`) -/

/-- The configuration dict of `CapsenseReader` (capsense.py lines 31-39). -/
structure CapsenseConfig where
  num_sensors : Nat
  values_per_sensor : Nat
  sensor_names : List String
  value_names : List String

/-- `DEFAULT_CONFIG` (capsense.py lines 31-39). -/
def DEFAULT_CONFIG : CapsenseConfig :=
  { num_sensors := 3, values_per_sensor := 3,
    sensor_names := ["CSD_360", "CSD_100", "CSD_20"],
    value_names := ["RawCount", "DiffCount", "Baseline"] }

/-- `CapsenseReader.get_csv_header` (capsense.py lines 188-198). -/
def get_csv_header (cfg : CapsenseConfig) : String :=
  String.intercalate ","
    ((cfg.sensor_names.take cfg.num_sensors).flatMap (fun s =>
      (cfg.value_names.take cfg.values_per_sensor).map (fun v => s ++ "_" ++ v)))

/-- `CapsenseReader.get_csv_string` on a successful raw read of the
default configuration: `values[j*3+i]` for sensor position `i`, value
kind `j` (capsense.py lines 156-165 and 200-213). -/
def get_csv_string (values : List Nat) : String :=
  String.intercalate ","
    ((List.range DEFAULT_CONFIG.num_sensors).flatMap (fun i =>
      (List.range DEFAULT_CONFIG.values_per_sensor).map (fun j =>
        toString (values.getD (j * DEFAULT_CONFIG.num_sensors + i) 0))))

/-- Per-tick outcome of the capsense read, covering every branch of
`get_capsense_data` (main.py lines 236-249): a successful read, a read
failure inside `get_csv_string` (which returns `None`), or an
exception escaping to the outer handler. -/
inductive CapsenseOutcome
  | values (raw : List Nat)
  | readFail
  | raised

/-- `get_capsense_data` (main.py lines 236-249). -/
def get_capsense_data (readerPresent : Bool) (outcome : CapsenseOutcome) : String :=
  if readerPresent = false then
    String.intercalate "," (List.replicate 12 "NO_SENSOR")
  else
    match outcome with
    | .values raw =>
      let capsense_csv := get_csv_string raw
      if capsense_csv = "" then String.intercalate "," (List.replicate 12 "EMPTY")
      else capsense_csv
    | .readFail => String.intercalate "," (List.replicate 12 "EMPTY")
    | .raised => String.intercalate "," (List.replicate 12 "ERROR")

/-- `getBMEdata` (main.py lines 227-234): the BME280 driver is an
external module, so its readings are opaque formatted values supplied
by the environment; a raised read is converted to `"ERROR"` sentinels. -/
def getBMEdata (reading : Option (String × String × String)) : String × String × String :=
  reading.getD ("ERROR", "ERROR", "ERROR")

/-! ## Parsing of clock_time and start_date (main.py lines 368-369) -/

/-- `hours, minutes = map(int, clock_time.split(':'))`; `none` models
the exception on a malformed string. -/
def parseTime (s : String) : Option (Int × Int) :=
  match (pySplit s ':').map pyInt? with
  | [some h, some m] => some (h, m)
  | _ => none

/-- `year, month, day = map(int, start_date.split('-'))`. -/
def parseDate (s : String) : Option (Int × Int × Int) :=
  match (pySplit s '-').map pyInt? with
  | [some y, some m, some d] => some (y, m, d)
  | _ => none

/-! ## Timestamp computation inside the sample loop (main.py lines 423-450) -/

/-- The day-rollover `while new_day > 30` loop (main.py lines 441-446),
fuel-structural; the fuel supplied always suffices since the day count
drops by 30 each iteration. -/
def roll_day : Nat → Int → Int → Int → Int × Int × Int
  | 0, d, m, y => (d, m, y)
  | fuel + 1, d, m, y =>
    if d > 30 then
      let m' := m + 1
      if m' > 12 then roll_day fuel (d - 30) 1 (y + 1)
      else roll_day fuel (d - 30) m' y
    else (d, m, y)

/-- Parameters fixed for the whole sample loop of one session. -/
structure TickParams where
  year : Int
  month : Int
  day : Int
  start_seconds : Int
  rateNum : Int
  rateDen : Int
  path : String

/-- `datetime_str` for tick `i` (main.py lines 423-450).  The source
computes with floats `interval = 1.0 / sample_rate` and
`current_total_seconds = start_seconds + i * interval`; here the same
value is carried exactly as the fraction `ctsN / ctsD` with
`ctsD = rateNum`. -/
def datetime_str (p : TickParams) (i : Nat) : String :=
  let ctsN := p.start_seconds * p.rateNum + (i : Int) * p.rateDen
  let ctsD := p.rateNum
  let current_day_offset := ratFloor ctsN (86400 * ctsD)
  let sidN := ctsN - 86400 * current_day_offset * ctsD
  let current_hours := ratFloor sidN (3600 * ctsD)
  let m3600N := sidN - 3600 * (ratFloor sidN (3600 * ctsD)) * ctsD
  let current_minutes := ratFloor m3600N (60 * ctsD)
  let smodN := sidN - 60 * (ratFloor sidN (60 * ctsD)) * ctsD
  let current_seconds := ratFloor smodN ctsD
  let frN := sidN - (ratFloor sidN ctsD) * ctsD
  let current_milliseconds := ratFloor (frN * 1000) ctsD
  let current_date :=
    if current_day_offset = 0 then
      padInt 4 p.year ++ "-" ++ padInt 2 p.month ++ "-" ++ padInt 2 p.day
    else
      let rolled := roll_day (p.day + current_day_offset).toNat
        (p.day + current_day_offset) p.month p.year
      padInt 4 rolled.2.2 ++ "-" ++ padInt 2 rolled.2.1 ++ "-" ++ padInt 2 rolled.1
  current_date ++ " " ++ padInt 2 current_hours ++ ":" ++ padInt 2 current_minutes ++ ":" ++
    padInt 2 current_seconds ++ "." ++ padInt 3 current_milliseconds

/-! ## The sample loop (main.py lines 396-470) -/

/-- Per-tick failure injection and sensor data for one session. -/
structure Env where
  capsensePresent : Bool
  capsense : Nat → CapsenseOutcome
  bme : Nat → Option (String × String × String)
  tickRaises : Nat → Bool
  writeOk : Nat → Bool
  headerWriteOk : Bool
  appendOpenOk : Bool

/-- `MAX_CONSECUTIVE_ERRORS` (main.py line 399). -/
def MAX_CONSECUTIVE_ERRORS : Nat := 5

/-- The log entry string built for tick `i` (main.py lines 420-452). -/
def log_entry (env : Env) (p : TickParams) (i : Nat) : String :=
  let bmeRes := getBMEdata (env.bme i)
  let capsense_csv := get_capsense_data env.capsensePresent (env.capsense i)
  datetime_str p i ++ "," ++ bmeRes.1 ++ "," ++ bmeRes.2.1 ++ "," ++ bmeRes.2.2 ++ "," ++
    capsense_csv ++ "\n"

/-- Mutable state of the sample loop. -/
structure LoopState where
  successful_samples : Nat
  failed_samples : Nat
  consecutive_errors : Nat
  rows : List String
  ticksEntered : List Nat
  abortedEarly : Bool
  fs : String → Option String

/-- One iteration body after the circuit-breaker check (main.py lines
415-467): a raised tick body or a failed write increments the
consecutive-error counter; a successful write appends the entry to the
open file and resets the counter. -/
def runTick (env : Env) (p : TickParams) (i : Nat) (st : LoopState) : LoopState :=
  if env.tickRaises i then
    { st with failed_samples := st.failed_samples + 1,
              consecutive_errors := st.consecutive_errors + 1,
              ticksEntered := st.ticksEntered ++ [i] }
  else
    let entry := log_entry env p i
    if env.writeOk i then
      { st with successful_samples := st.successful_samples + 1,
                consecutive_errors := 0,
                rows := st.rows ++ [entry],
                fs := fun q => if q = p.path then some (((st.fs p.path).getD "") ++ entry)
                               else st.fs q,
                ticksEntered := st.ticksEntered ++ [i] }
    else
      { st with failed_samples := st.failed_samples + 1,
                consecutive_errors := st.consecutive_errors + 1,
                ticksEntered := st.ticksEntered ++ [i] }

/-- `for i in range(total_samples)` with the circuit-breaker break at
the top of the body (main.py lines 409-470), structural on the
remaining iteration count. -/
def runLoop (env : Env) (p : TickParams) : Nat → Nat → LoopState → LoopState
  | _, 0, st => st
  | i, fuel + 1, st =>
    if st.consecutive_errors ≥ MAX_CONSECUTIVE_ERRORS then
      { st with abortedEarly := true }
    else
      runLoop env p (i + 1) fuel (runTick env p i st)

/-! ## `execute_logging` (main.py lines 349-483) -/

/-- How `execute_logging` terminated. -/
inductive ExitKind
  | completed
  | fileCreateError
  | fileOpenError
  | exception
deriving DecidableEq, Repr

/-- Observable outcome of one `execute_logging` run: final session
state, final file-system contents, the rows successfully appended, and
the exit path taken. -/
structure ExecResult where
  status : LoggingStatus
  fs : String → Option String
  rows : List String
  header : Option String
  total_samples : Int
  fileOpened : Bool
  fileClosed : Bool
  ledOn : Bool
  exit : ExitKind
  successful_samples : Nat
  failed_samples : Nat
  ticksEntered : List Nat
  abortedEarly : Bool

/-- `logs/<label>.csv`. -/
def logPath (label : String) : String := "logs/" ++ label ++ ".csv"

/-- The CSV header row (main.py lines 378-384). -/
def csv_header_str (capsensePresent : Bool) : String :=
  let capsense_header :=
    if capsensePresent then get_csv_header DEFAULT_CONFIG else "capsense_unavailable"
  "Time,BME280_temperature,BME280_humidity,BME280_pressure," ++ capsense_header ++ "\n"

/-- `execute_logging` (main.py lines 349-483).  The float
`sample_rate` is carried exactly as `rateNum / rateDen`.  Exit paths:
a malformed `start_date`/`clock_time` or a zero sample rate raises and
is caught by the outer handler (lines 479-481: `active` cleared,
`label` kept, file untouched); a header-write or append-open failure
returns early (lines 391-394 / 404-407: `active` cleared, `label`
kept); otherwise the loop runs and the normal exit clears `active` and
`label` (lines 472-477).  The LED is cleared on every path by the
`finally` (lines 482-483). -/
def execute_logging (env : Env) (now : Int) (status0 : LoggingStatus)
    (fs0 : String → Option String) (duration rateNum rateDen : Int)
    (label clock_time start_date : String) : ExecResult :=
  let status1 : LoggingStatus :=
    { status0 with active := true, label := label, start_time := now,
                   duration := duration, type := "single" }
  match parseDate start_date, parseTime clock_time with
  | some (year, month, day), some (hours, minutes) =>
    if rateNum = 0 then
      { status := { status1 with active := false }, fs := fs0, rows := [],
        header := none, total_samples := 0, fileOpened := false, fileClosed := false,
        ledOn := false, exit := .exception, successful_samples := 0,
        failed_samples := 0, ticksEntered := [], abortedEarly := false }
    else
      let start_seconds := hours * 3600 + minutes * 60
      let total_samples := Int.tdiv (duration * rateNum) rateDen
      let csv_header := csv_header_str env.capsensePresent
      if env.headerWriteOk = false then
        { status := { status1 with active := false }, fs := fs0, rows := [],
          header := none, total_samples := total_samples, fileOpened := false,
          fileClosed := false, ledOn := false, exit := .fileCreateError,
          successful_samples := 0, failed_samples := 0, ticksEntered := [],
          abortedEarly := false }
      else
        let fs1 := fun q => if q = logPath label then some csv_header else fs0 q
        if env.appendOpenOk = false then
          { status := { status1 with active := false }, fs := fs1, rows := [],
            header := some csv_header, total_samples := total_samples,
            fileOpened := false, fileClosed := false, ledOn := false,
            exit := .fileOpenError, successful_samples := 0, failed_samples := 0,
            ticksEntered := [], abortedEarly := false }
        else
          let p : TickParams :=
            { year := year, month := month, day := day, start_seconds := start_seconds,
              rateNum := rateNum, rateDen := rateDen, path := logPath label }
          let final := runLoop env p 0 total_samples.toNat
            { successful_samples := 0, failed_samples := 0, consecutive_errors := 0,
              rows := [], ticksEntered := [], abortedEarly := false, fs := fs1 }
          { status := { status1 with active := false, label := "" }, fs := final.fs,
            rows := final.rows, header := some csv_header, total_samples := total_samples,
            fileOpened := true, fileClosed := true, ledOn := false, exit := .completed,
            successful_samples := final.successful_samples,
            failed_samples := final.failed_samples, ticksEntered := final.ticksEntered,
            abortedEarly := final.abortedEarly }
  | _, _ =>
    { status := { status1 with active := false }, fs := fs0, rows := [], header := none,
      total_samples := 0, fileOpened := false, fileClosed := false, ledOn := false,
      exit := .exception, successful_samples := 0, failed_samples := 0,
      ticksEntered := [], abortedEarly := false }

/-! ## `record_batch_data` (main.py lines 251-289) -/

/-- The per-sub-run clock-time computation of `record_batch_data`
(main.py lines 268-277), translated verbatim: `batch_start_seconds`
is computed but — as in the source — never added to `start_seconds`.
`none` models the exception when `clock_time` fails to parse. -/
def batch_clock_time (duration : Int) (clock_time : String) (i : Nat) : Option String :=
  let batch_start_seconds : Int := if i > 1 then ((i : Int) - 1) * (duration + 2) else 0
  match parseTime clock_time with
  | none => none
  | some (hours, minutes) =>
    let start_seconds := hours * 3600 + minutes * 60
    let new_hours := Int.fmod (Int.fdiv start_seconds 3600) 24
    let new_minutes := Int.fdiv (Int.fmod start_seconds 3600) 60
    let _ := batch_start_seconds
    some (padInt 2 new_hours ++ ":" ++ padInt 2 new_minutes)

/-- Observable outcome of one `record_batch_data` run: the four
sub-run results, the session state visible during each of the three
2-second inter-run gaps, and the final state and file system. -/
structure BatchResult where
  results : List ExecResult
  gapStatuses : List LoggingStatus
  finalStatus : LoggingStatus
  finalFs : String → Option String

/-- `record_batch_data` (main.py lines 251-289): sets the aggregate
batch status, then runs `execute_logging` four times on labels
`<label>_1..4` with a 2-second sleep between runs, and finally clears
`active` and `label`.  `none` models the uncaught exception when
`clock_time` fails to parse in the first iteration (line 272), which
kills the task. -/
def record_batch_data (envs : Nat → Env) (now : Int) (status0 : LoggingStatus)
    (fs0 : String → Option String) (duration rateNum rateDen : Int)
    (label clock_time start_date : String) : Option BatchResult :=
  let statusB : LoggingStatus :=
    { status0 with active := true, label := label, start_time := now,
                   duration := duration * 4 + 6, type := "batch" }
  match parseTime clock_time with
  | none => none
  | some _ =>
    let run := fun (i : Nat) (st : LoggingStatus) (fs : String → Option String) =>
      execute_logging (envs i) now st fs duration rateNum rateDen
        (label ++ "_" ++ toString i) ((batch_clock_time duration clock_time i).getD "")
        start_date
    let r1 := run 1 statusB fs0
    let r2 := run 2 r1.status r1.fs
    let r3 := run 3 r2.status r2.fs
    let r4 := run 4 r3.status r3.fs
    some { results := [r1, r2, r3, r4],
           gapStatuses := [r1.status, r2.status, r3.status],
           finalStatus := { r4.status with active := false, label := "" },
           finalFs := r4.fs }

/-! ## The session-state transition system

Each constructor is one mutation site of `logging_status` in the
source: session starts (main.py lines 255-259 and 354-358), the
normal-completion clear (lines 287-288 and 476-477), and the
error-path clears that reset only `active` (lines 393, 406, 481). -/

/-- One atomic mutation of `logging_status`. -/
inductive SessionOp
  | startSingle (label : String) (now duration : Int)
  | startBatch (label : String) (now duration : Int)
  | completeRun
  | errorExit
deriving DecidableEq, Repr

/-- Effect of one mutation on `logging_status`. -/
def applyOp (st : LoggingStatus) : SessionOp → LoggingStatus
  | .startSingle l now d =>
    { st with active := true, label := l, start_time := now, duration := d,
              type := "single" }
  | .startBatch l now d =>
    { st with active := true, label := l, start_time := now, duration := d * 4 + 6,
              type := "batch" }
  | .completeRun => { st with active := false, label := "" }
  | .errorExit => { st with active := false }

/-- Whether an operation is a session start. -/
def SessionOp.isStart : SessionOp → Bool
  | .startSingle .. => true
  | .startBatch .. => true
  | _ => false

/-- State after a sequence of session operations from the initial
state. -/
def runOps (ops : List SessionOp) : LoggingStatus :=
  ops.foldl applyOp logging_status_init

/-! ## HTTP form decoding and routing (main.py lines 335-347, 485-569) -/

/-- The minimal URL-decode substitution (main.py line 344). -/
def urlDecode (v : String) : String :=
  pyReplace (pyReplace (pyReplace v "%20" " ") "%3A" ":") "%2D" "-"

/-- `parse_form_data` (main.py lines 335-347): split on `&`, then on
the first `=`; pairs without `=` are dropped. -/
def parse_form_data (body : String) : List (String × String) :=
  if body = "" then []
  else
    (pySplit body '&').filterMap (fun pair =>
      match splitCh '=' pair.data with
      | [] => none
      | [_] => none
      | k :: rest =>
        some (String.mk k, urlDecode (String.intercalate "=" (rest.map String.mk))))

/-- `data.get(key, default)` on the dict built by `parse_form_data`:
later pairs overwrite earlier ones. -/
def formGet (data : List (String × String)) (k v0 : String) : String :=
  (data.foldl (fun acc p => if p.1 = k then some p.2 else acc) none).getD v0

/-- The five values extracted for a start request (main.py lines
511-515 and 531-535); the float `sample_rate` as an exact pair. -/
structure StartParams where
  duration : Int
  rateNum : Int
  rateDen : Int
  label : String
  clock_time : String
  start_date : String
deriving DecidableEq, Repr

/-- Field extraction with defaults for `/start_logging` and
`/start_batch` (main.py lines 509-515 and 529-535).  `none` models the
exception raised by `int()`/`float()` on a present but unparsable
field, which escapes to the per-connection handler (lines 565-569): no
response is sent and the connection is closed. -/
def parse_start_params (body : String) (labelDefault : String) : Option StartParams :=
  let data := parse_form_data body
  match pyInt? (formGet data "duration" "60"),
        pyFloat? (formGet data "sample_rate" "0.1") with
  | some d, some (rn, rd) =>
    some { duration := d, rateNum := rn, rateDen := rd,
           label := formGet data "label" labelDefault,
           clock_time := formGet data "clock_time" "12:00",
           start_date := formGet data "date" "2024-01-01" }
  | _, _ => none

/-- The task spawned by a start route. -/
inductive SpawnedTask
  | single (p : StartParams)
  | batch (p : StartParams)
deriving DecidableEq, Repr

/-- Outcome of handling one accepted connection: the response sent
(`none` when the handler raised before sending one), the task spawned,
and whether the connection was closed (the `finally` at line 568
always closes it). -/
structure RouteResult where
  response : Option String
  spawned : Option SpawnedTask
  closed : Bool
deriving DecidableEq, Repr

/-- An apostrophe, kept out of string literals. -/
def squote : String := (Char.ofNat 39).toString

/-- The `/status` response (main.py lines 547-557). -/
def status_response (status : LoggingStatus) (now : Int) : String :=
  if status.active then
    let elapsed := now - status.start_time
    let remaining := max 0 (status.duration - elapsed)
    "HTTP/1.1 200 OK\r\nContent-Type: text/plain\r\nConnection: close\r\n\r\n" ++
      "ACTIVE: " ++ status.type ++ " " ++ squote ++ status.label ++ squote ++ " - " ++
      toString elapsed ++ "s elapsed, " ++ toString remaining ++ "s remaining"
  else
    "HTTP/1.1 200 OK\r\nContent-Type: text/plain\r\nConnection: close\r\n\r\nIDLE"

/-- The 404 response (main.py line 561). -/
def notFoundResponse : String :=
  "HTTP/1.1 404 Not Found\r\nContent-Type: text/plain\r\nConnection: close\r\n\r\nNot Found"

/-- The plain 200 response for start routes (main.py lines 523, 543). -/
def okResponse : String :=
  "HTTP/1.1 200 OK\r\nContent-Type: text/plain\r\nConnection: close\r\n\r\nOK"

/-- The route dispatch of `http_server` for one accepted connection
(main.py lines 500-569): substring guards evaluated in priority order;
the static page blob is the opaque parameter `page`. -/
def http_route (page : String) (headers body : String) (status : LoggingStatus)
    (now : Int) : RouteResult :=
  if strContains headers "GET / " || strContains headers "GET / HTTP/1.1" then
    { response := some ("HTTP/1.1 200 OK\r\nContent-Type: text/html\r\nConnection: close\r\n\r\n"
        ++ page),
      spawned := none, closed := true }
  else if strContains headers "POST" && strContains headers "/start_logging" then
    match parse_start_params body "default" with
    | some p => { response := some okResponse, spawned := some (.single p), closed := true }
    | none => { response := none, spawned := none, closed := true }
  else if strContains headers "POST" && strContains headers "/start_batch" then
    match parse_start_params body "batch" with
    | some p => { response := some okResponse, spawned := some (.batch p), closed := true }
    | none => { response := none, spawned := none, closed := true }
  else if strContains headers "GET /status" then
    { response := some (status_response status now), spawned := none, closed := true }
  else
    { response := some notFoundResponse, spawned := none, closed := true }

/-! ## Reference definitions and shared concrete objects -/

/-- Modelled from the spec (for comparison with `batch_clock_time`):
"For sub-run i (1-indexed), computes an offset clock-time by adding
(i-1)*(duration_s+2) seconds to the requested clock_time, wrapping at
24 hours", rendered in the same HH:MM shape the code embeds. -/
def spec_offset_clock_time (duration : Int) (clock_time : String) (i : Nat) : Option String :=
  match parseTime clock_time with
  | none => none
  | some (hours, minutes) =>
    let offset := ((i : Int) - 1) * (duration + 2)
    let total := Int.fmod (hours * 3600 + minutes * 60 + offset) 86400
    some (padInt 2 (Int.fdiv total 3600) ++ ":" ++ padInt 2 (Int.fdiv (Int.fmod total 3600) 60))

/-- A healthy environment whose capsense read fails at every tick and
whose BME read fails (all file operations succeed). -/
def envReadFail : Env :=
  { capsensePresent := true, capsense := fun _ => .readFail, bme := fun _ => none,
    tickRaises := fun _ => false, writeOk := fun _ => true,
    headerWriteOk := true, appendOpenOk := true }

/-- The same environment with the capsense reader absent. -/
def envNoSensor : Env := { envReadFail with capsensePresent := false }

/-- An environment whose first five file writes fail. -/
def envWriteFail5 : Env := { envReadFail with writeOk := fun i => decide (5 ≤ i) }

/-- An empty file system. -/
def emptyFs : String → Option String := fun _ => none

/-- The all-default start parameters (main.py lines 511-515). -/
def default_start_params (labelDefault : String) : StartParams :=
  { duration := 60, rateNum := 1, rateDen := 10, label := labelDefault,
    clock_time := "12:00", start_date := "2024-01-01" }

/-- An environment whose header write fails. -/
def envHeaderFail : Env := { envReadFail with headerWriteOk := false }

/-! ## Shared lemmas -/

/-- A non-start operation leaves the initial session state fixed:
the clears reset `active`/`label`, which are already clear. -/
lemma applyOp_init_fix (op : SessionOp) (h : op.isStart = false) :
    applyOp logging_status_init op = logging_status_init := by
  cases op <;> first | rfl | simp [SessionOp.isStart] at h

/-- A sequence without a session start keeps the initial state. -/
lemma runOps_no_start : ∀ ops : List SessionOp,
    (∀ op ∈ ops, op.isStart = false) → runOps ops = logging_status_init
  | [], _ => rfl
  | op :: rest, h => by
    have h1 := applyOp_init_fix op (h op (List.mem_cons_self op rest))
    have step : runOps (op :: rest) = rest.foldl applyOp (applyOp logging_status_init op) :=
      rfl
    rw [step, h1]
    exact runOps_no_start rest (fun o ho => h o (List.mem_cons_of_mem _ ho))

/-- `data.get` of a key bound by no pair returns the default. -/
lemma formGet_absent : ∀ (data : List (String × String)) (k v0 : String),
    (∀ p ∈ data, p.1 ≠ k) → formGet data k v0 = v0
  | [], _, _, _ => rfl
  | q :: rest, k, v0, h => by
    have hq : q.1 ≠ k := h q (List.mem_cons_self q rest)
    have step : formGet (q :: rest) k v0 = formGet rest k v0 := by
      unfold formGet
      simp only [List.foldl_cons, if_neg hq]
    rw [step]
    exact formGet_absent rest k v0 (fun p hp => h p (List.mem_cons_of_mem _ hp))

/-- With none of the five field keys present in the decoded form,
parameter extraction yields all defaults. -/
lemma parse_start_params_defaults (body labelDefault : String)
    (h : ∀ p ∈ parse_form_data body, p.1 ≠ "duration" ∧ p.1 ≠ "sample_rate" ∧
      p.1 ≠ "label" ∧ p.1 ≠ "clock_time" ∧ p.1 ≠ "date") :
    parse_start_params body labelDefault = some (default_start_params labelDefault) := by
  simp only [parse_start_params]
  rw [formGet_absent _ _ _ (fun p hp => (h p hp).1),
      formGet_absent _ _ _ (fun p hp => (h p hp).2.1),
      formGet_absent _ _ _ (fun p hp => (h p hp).2.2.1),
      formGet_absent _ _ _ (fun p hp => (h p hp).2.2.2.1),
      formGet_absent _ _ _ (fun p hp => (h p hp).2.2.2.2)]
  rw [show pyInt? "60" = some 60 from by decide,
      show pyFloat? "0.1" = some ((1 : Int), (10 : Int)) from by decide]
  rfl

/-- An unparsable `duration` field makes extraction raise. -/
lemma parse_start_params_badInt (body labelDefault : String)
    (h : pyInt? (formGet (parse_form_data body) "duration" "60") = none) :
    parse_start_params body labelDefault = none := by
  simp only [parse_start_params]
  rw [h]

/-- The `/start_logging` branch of the router. -/
lemma http_route_start_logging (page headers body : String) (status : LoggingStatus)
    (now : Int)
    (h1 : (strContains headers "GET / " || strContains headers "GET / HTTP/1.1") = false)
    (h2 : (strContains headers "POST" && strContains headers "/start_logging") = true) :
    http_route page headers body status now =
      match parse_start_params body "default" with
      | some p => { response := some okResponse, spawned := some (.single p), closed := true }
      | none => { response := none, spawned := none, closed := true } := by
  unfold http_route
  rw [h1, h2]
  simp

/-- Unfolding step of the sample loop. -/
lemma runLoop_succ (env : Env) (p : TickParams) (i fuel : Nat) (st : LoopState) :
    runLoop env p i (fuel + 1) st =
      if st.consecutive_errors ≥ MAX_CONSECUTIVE_ERRORS then { st with abortedEarly := true }
      else runLoop env p (i + 1) fuel (runTick env p i st) := rfl

/-- The loop with no fuel returns the state unchanged. -/
lemma runLoop_zero (env : Env) (p : TickParams) (i : Nat) (st : LoopState) :
    runLoop env p i 0 st = st := rfl

/-- A raised tick body or a failed write makes one uniform state
change: one more failure, counter bumped, tick recorded, no row. -/
lemma runTick_fail (env : Env) (p : TickParams) (i : Nat) (st : LoopState)
    (h : env.tickRaises i = true ∨ env.writeOk i = false) :
    runTick env p i st =
      { st with failed_samples := st.failed_samples + 1,
                consecutive_errors := st.consecutive_errors + 1,
                ticksEntered := st.ticksEntered ++ [i] } := by
  unfold runTick
  rcases h with h | h
  · rw [if_pos h]
  · by_cases hr : env.tickRaises i = true
    · rw [if_pos hr]
    · rw [if_neg hr, if_neg (by simp [h])]

/-- Each tick appends at most one row. -/
lemma runTick_rows_le (env : Env) (p : TickParams) (i : Nat) (st : LoopState) :
    (runTick env p i st).rows.length ≤ st.rows.length + 1 := by
  unfold runTick
  by_cases hr : env.tickRaises i = true
  · simp [hr]
  · by_cases hw : env.writeOk i = true <;> simp [hr, hw]

/-- The loop appends at most `fuel` rows. -/
lemma runLoop_rows_le (env : Env) (p : TickParams) : ∀ (fuel i : Nat) (st : LoopState),
    (runLoop env p i fuel st).rows.length ≤ st.rows.length + fuel
  | 0, _, st => Nat.le_add_right _ 0
  | fuel + 1, i, st => by
    rw [runLoop_succ]
    by_cases hc : st.consecutive_errors ≥ MAX_CONSECUTIVE_ERRORS
    · rw [if_pos hc]
      exact Nat.le_add_right _ _
    · rw [if_neg hc]
      have h1 := runLoop_rows_le env p fuel (i + 1) (runTick env p i st)
      have h2 := runTick_rows_le env p i st
      omega

/-- Joining after appending one string. -/
lemma join_append_singleton (l : List String) (s : String) :
    String.join (l ++ [s]) = String.join l ++ s := by
  simp [String.join, List.foldl_append]

/-- One tick preserves "the file holds the header followed by the
joined rows". -/
lemma runTick_fs (env : Env) (p : TickParams) (i : Nat) (st : LoopState) (h0 : String)
    (h : st.fs p.path = some (h0 ++ String.join st.rows)) :
    (runTick env p i st).fs p.path =
      some (h0 ++ String.join (runTick env p i st).rows) := by
  unfold runTick
  by_cases hr : env.tickRaises i = true
  · rw [if_pos hr]
    exact h
  · rw [if_neg hr]
    by_cases hw : env.writeOk i = true
    · rw [if_pos hw]
      simp only [if_pos rfl]
      rw [h]
      simp [join_append_singleton, String.append_assoc]
    · rw [if_neg hw]
      exact h

/-- The loop preserves "the file holds the header followed by the
joined rows". -/
lemma runLoop_fs (env : Env) (p : TickParams) (h0 : String) :
    ∀ (fuel i : Nat) (st : LoopState),
      st.fs p.path = some (h0 ++ String.join st.rows) →
      (runLoop env p i fuel st).fs p.path =
        some (h0 ++ String.join (runLoop env p i fuel st).rows)
  | 0, _, _, h => h
  | fuel + 1, i, st, h => by
    rw [runLoop_succ]
    by_cases hc : st.consecutive_errors ≥ MAX_CONSECUTIVE_ERRORS
    · rw [if_pos hc]
      exact h
    · rw [if_neg hc]
      exact runLoop_fs env p h0 fuel (i + 1) (runTick env p i st)
        (runTick_fs env p i st h0 h)

/-- Python truncation agrees with the rational floor on nonnegative
numerator and positive denominator. -/
lemma tdiv_eq_rat_floor (a b : Int) (ha : 0 ≤ a) (hb : 0 < b) :
    Int.tdiv a b = ⌊(a : ℚ) / (b : ℚ)⌋ := by
  obtain ⟨m, rfl⟩ := Int.eq_ofNat_of_zero_le ha
  obtain ⟨n, rfl⟩ := Int.eq_ofNat_of_zero_le hb.le
  rw [show (((n : ℕ) : ℤ) : ℚ) = ((n : ℕ) : ℚ) from by push_cast; ring,
      Rat.floor_intCast_div_natCast, ← Int.ofNat_tdiv, ← Int.ofNat_ediv]

/-- Every exit path of `execute_logging` clears the LED and `active`;
the normal-completion path additionally closes the file and clears
`label`. -/
lemma execute_logging_exit (env : Env) (now : Int) (status0 : LoggingStatus)
    (fs0 : String → Option String) (duration rateNum rateDen : Int)
    (label clock_time start_date : String) :
    (execute_logging env now status0 fs0 duration rateNum rateDen label clock_time
      start_date).ledOn = false ∧
    (execute_logging env now status0 fs0 duration rateNum rateDen label clock_time
      start_date).status.active = false ∧
    ((execute_logging env now status0 fs0 duration rateNum rateDen label clock_time
        start_date).exit = ExitKind.completed →
      (execute_logging env now status0 fs0 duration rateNum rateDen label clock_time
        start_date).fileClosed = true ∧
      (execute_logging env now status0 fs0 duration rateNum rateDen label clock_time
        start_date).status.label = "") := by
  unfold execute_logging
  rcases hd : parseDate start_date with _ | ⟨y, md⟩
  · rcases ht : parseTime clock_time with _ | hm <;> simp [hd, ht]
  · rcases ht : parseTime clock_time with _ | hm
    · simp [hd, ht]
    · rcases md with ⟨mo, d⟩
      rcases hm with ⟨hh, mm⟩
      simp only [hd, ht]
      by_cases h0 : rateNum = 0
      · simp [h0]
      · rw [if_neg h0]
        by_cases hw : env.headerWriteOk = false
        · simp [hw]
        · rw [if_neg hw]
          by_cases ha : env.appendOpenOk = false
          · simp [ha]
          · rw [if_neg ha]
            simp

/-- Five consecutive failing ticks drive the counter to the threshold
and abort the loop at the top of the sixth iteration. -/
lemma runLoop_five_fail (env : Env) (p : TickParams) (k : Nat)
    (fs1 : String → Option String)
    (hfail : ((List.range 5).all (fun i => env.tickRaises i || !(env.writeOk i))) = true) :
    runLoop env p 0 (k + 6)
        { successful_samples := 0, failed_samples := 0, consecutive_errors := 0,
          rows := [], ticksEntered := [], abortedEarly := false, fs := fs1 } =
      { successful_samples := 0, failed_samples := 5, consecutive_errors := 5,
        rows := [], ticksEntered := [0, 1, 2, 3, 4], abortedEarly := true, fs := fs1 } := by
  have hf : ∀ i ∈ List.range 5, env.tickRaises i = true ∨ env.writeOk i = false := by
    rw [List.all_eq_true] at hfail
    intro i hi
    have h := hfail i hi
    simpa [Bool.or_eq_true, Bool.not_eq_true'] using h
  have h0 := hf 0 (by decide)
  have h1 := hf 1 (by decide)
  have h2 := hf 2 (by decide)
  have h3 := hf 3 (by decide)
  have h4 := hf 4 (by decide)
  rw [show k + 6 = (k + 5) + 1 from rfl, runLoop_succ,
      if_neg (by norm_num [MAX_CONSECUTIVE_ERRORS]),
      runTick_fail env p 0 _ h0,
      show k + 5 = (k + 4) + 1 from rfl, runLoop_succ,
      if_neg (by norm_num [MAX_CONSECUTIVE_ERRORS]),
      runTick_fail env p 1 _ h1,
      show k + 4 = (k + 3) + 1 from rfl, runLoop_succ,
      if_neg (by norm_num [MAX_CONSECUTIVE_ERRORS]),
      runTick_fail env p 2 _ h2,
      show k + 3 = (k + 2) + 1 from rfl, runLoop_succ,
      if_neg (by norm_num [MAX_CONSECUTIVE_ERRORS]),
      runTick_fail env p 3 _ h3,
      show k + 2 = (k + 1) + 1 from rfl, runLoop_succ,
      if_neg (by norm_num [MAX_CONSECUTIVE_ERRORS]),
      runTick_fail env p 4 _ h4,
      runLoop_succ, if_pos (by norm_num [MAX_CONSECUTIVE_ERRORS])]
  rfl

/-! ## C1 -/

/-- C1: the code computes `batch_start_seconds = (i-1)*(duration_s+2)`
but never adds it to the requested clock-time, so every sub-run embeds
the requested clock-time unchanged.  At `duration_s = 58`, sub-run 2,
the claimed offset is exactly one minute: the spec-modelled value is
12:01 while the code embeds 12:00; moreover the code's value is
independent of `duration` and `i` altogether. -/
theorem c1_batch_clock_unused_offset :
    batch_clock_time 58 "12:00" 2 = some "12:00" ∧
    spec_offset_clock_time 58 "12:00" 2 = some "12:01" ∧
    (∀ duration : Int, ∀ i : Nat, batch_clock_time duration "12:00" i = some "12:00") := by
  refine ⟨by decide, by decide, ?_⟩
  intro duration i
  have hp : parseTime "12:00" = some (12, 0) := by decide
  unfold batch_clock_time
  rw [hp]
  decide

/-! ## C2 -/

/-- C2: the column-count invariant fails on failure rows.  With the
capsense reader present (default configuration) the header has 13
comma-separated columns, but the row written on a failed capsense read
has 16 fields, because the sentinel block is 12 entries wide against a
9-wide header; with the reader absent the header has 5 columns against
the same 16-field rows. -/
theorem c2_column_count_mismatch :
    countFields (csv_header_str true) = 13 ∧
    (execute_logging envReadFail 0 logging_status_init emptyFs 1 1 1 "t" "12:00"
        "2024-01-01").rows.map countFields = [16] ∧
    countFields (csv_header_str false) = 5 ∧
    (execute_logging envNoSensor 0 logging_status_init emptyFs 1 1 1 "t" "12:00"
        "2024-01-01").rows.map countFields = [16] :=
  ⟨by decide, by decide, by decide, by decide⟩

/-! ## C3 -/

/-- C3 counterexample: a started and normally completed single session
reaches a state with `active = false` and `type = "single"`, violating
the claimed invariant that `active == false` implies `kind == None`. -/
theorem c3_counterexample :
    (runOps [.startSingle "a" 0 1, .completeRun]).active = false ∧
    (runOps [.startSingle "a" 0 1, .completeRun]).type = "single" ∧
    (runOps [.startSingle "a" 0 1, .completeRun]).type ≠ "" :=
  ⟨by decide, by decide, by decide⟩

/-- C3 (amended): the invariant `active == false` implies `kind ==
None` holds exactly until the first session start: every state reached
by completions and error exits alone has `active = false` and an empty
`type`; session starts set `type` to "single"/"batch" and no clear
ever resets it. -/
theorem c3_inactive_kind_invariant (ops : List SessionOp)
    (h : ∀ op ∈ ops, op.isStart = false) :
    (runOps ops).active = false ∧ (runOps ops).type = "" := by
  rw [runOps_no_start ops h]
  exact ⟨rfl, rfl⟩

/-- Witness for C3 (amended) at a concrete start-free trace. -/
theorem c3_inactive_kind_invariant_witness :
    (runOps [.completeRun, .errorExit]).active = false ∧
    (runOps [.completeRun, .errorExit]).type = "" :=
  c3_inactive_kind_invariant [.completeRun, .errorExit] (by decide)

/-! ## C9 -/

/-- C9: a request on which all four route guards are false receives
the 404 response and the connection is closed; in particular any
request line `GET /foo` does. -/
theorem c9_unknown_route_404 :
    (∀ (page headers body : String) (status : LoggingStatus) (now : Int),
      (strContains headers "GET / " || strContains headers "GET / HTTP/1.1") = false →
      (strContains headers "POST" && strContains headers "/start_logging") = false →
      (strContains headers "POST" && strContains headers "/start_batch") = false →
      strContains headers "GET /status" = false →
      http_route page headers body status now =
        { response := some notFoundResponse, spawned := none, closed := true }) ∧
    (∀ (page body : String) (status : LoggingStatus) (now : Int),
      http_route page "GET /foo HTTP/1.1\r\nHost: x" body status now =
        { response := some notFoundResponse, spawned := none, closed := true }) := by
  have main : ∀ (page headers body : String) (status : LoggingStatus) (now : Int),
      (strContains headers "GET / " || strContains headers "GET / HTTP/1.1") = false →
      (strContains headers "POST" && strContains headers "/start_logging") = false →
      (strContains headers "POST" && strContains headers "/start_batch") = false →
      strContains headers "GET /status" = false →
      http_route page headers body status now =
        { response := some notFoundResponse, spawned := none, closed := true } := by
    intro page headers body status now h1 h2 h3 h4
    unfold http_route
    rw [h1, h2, h3, h4]
    simp
  exact ⟨main, fun page body status now =>
    main page _ body status now (by decide) (by decide) (by decide) (by decide)⟩

/-- Witness for C9 at a concrete unknown request. -/
theorem c9_unknown_route_404_witness :
    http_route "PAGE" "GET /foo HTTP/1.1\r\nHost: x" "" logging_status_init 0 =
      { response := some notFoundResponse, spawned := none, closed := true } :=
  c9_unknown_route_404.1 "PAGE" _ "" logging_status_init 0
    (by decide) (by decide) (by decide) (by decide)

/-! ## C5 -/

/-- C5 counterexample: a `/start_logging` POST whose `duration` field
is present but unparsable is not silently defaulted: `int()` raises,
the handler sends no response and spawns no task, contradicting the
claim that such a request still gets a 200 and a session task. -/
theorem c5_counterexample :
    http_route "PAGE" "POST /start_logging HTTP/1.1" "duration=abc" logging_status_init 0 =
      { response := none, spawned := none, closed := true } := by
  decide

/-- C5 (amended): fields missing from the form body are silently
defaulted — a `/start_logging` POST with none of the five keys present
spawns a session task with all defaults and answers 200 OK, and the
batch extraction defaults likewise — but a present, unparsable
`duration` raises inside the handler: no response is sent and no task
is spawned. -/
theorem c5_form_defaults :
    (∀ (page headers body : String) (status : LoggingStatus) (now : Int),
      (strContains headers "GET / " || strContains headers "GET / HTTP/1.1") = false →
      (strContains headers "POST" && strContains headers "/start_logging") = true →
      (∀ p ∈ parse_form_data body, p.1 ≠ "duration" ∧ p.1 ≠ "sample_rate" ∧
        p.1 ≠ "label" ∧ p.1 ≠ "clock_time" ∧ p.1 ≠ "date") →
      http_route page headers body status now =
        { response := some okResponse,
          spawned := some (.single (default_start_params "default")),
          closed := true }) ∧
    (∀ body : String,
      (∀ p ∈ parse_form_data body, p.1 ≠ "duration" ∧ p.1 ≠ "sample_rate" ∧
        p.1 ≠ "label" ∧ p.1 ≠ "clock_time" ∧ p.1 ≠ "date") →
      parse_start_params body "batch" = some (default_start_params "batch")) ∧
    (∀ (page headers body : String) (status : LoggingStatus) (now : Int),
      (strContains headers "GET / " || strContains headers "GET / HTTP/1.1") = false →
      (strContains headers "POST" && strContains headers "/start_logging") = true →
      pyInt? (formGet (parse_form_data body) "duration" "60") = none →
      http_route page headers body status now =
        { response := none, spawned := none, closed := true }) := by
  refine ⟨?_, ?_, ?_⟩
  · intro page headers body status now h1 h2 h
    rw [http_route_start_logging page headers body status now h1 h2,
        parse_start_params_defaults body "default" h]
  · intro body h
    exact parse_start_params_defaults body "batch" h
  · intro page headers body status now h1 h2 h
    rw [http_route_start_logging page headers body status now h1 h2,
        parse_start_params_badInt body "default" h]

/-- Witness for C5 (amended) at a key-free body and an unparsable one. -/
theorem c5_form_defaults_witness :
    http_route "PAGE" "POST /start_logging HTTP/1.1" "" logging_status_init 0 =
      { response := some okResponse,
        spawned := some (.single (default_start_params "default")),
        closed := true } ∧
    http_route "PAGE" "POST /start_logging HTTP/1.1" "duration=zz" logging_status_init 0 =
      { response := none, spawned := none, closed := true } :=
  ⟨c5_form_defaults.1 "PAGE" _ "" logging_status_init 0 (by decide) (by decide)
      (by decide),
    c5_form_defaults.2.2 "PAGE" _ "duration=zz" logging_status_init 0 (by decide)
      (by decide) (by decide)⟩

/-! ## C8 -/

/-- C8 counterexample: on the exceptional exit (malformed
`clock_time`) and on the file-creation-failure exit, `active` is
cleared but `label` keeps its value, contradicting the claim that
every exit path ends with `SessionState.label = ''`. -/
theorem c8_counterexample :
    (execute_logging envReadFail 0 logging_status_init emptyFs 60 1 1 "mylab" "bad"
        "2024-01-01").exit = ExitKind.exception ∧
    (execute_logging envReadFail 0 logging_status_init emptyFs 60 1 1 "mylab" "bad"
        "2024-01-01").status.active = false ∧
    (execute_logging envReadFail 0 logging_status_init emptyFs 60 1 1 "mylab" "bad"
        "2024-01-01").status.label = "mylab" ∧
    (execute_logging envHeaderFail 0 logging_status_init emptyFs 60 1 1 "mylab" "12:00"
        "2024-01-01").exit = ExitKind.fileCreateError ∧
    (execute_logging envHeaderFail 0 logging_status_init emptyFs 60 1 1 "mylab" "12:00"
        "2024-01-01").status.label = "mylab" :=
  ⟨by decide, by decide, by decide, by decide, by decide⟩

/-- C8 (amended): every exit path of a run clears the LED and sets
`active` to false; the normal-completion/abort path additionally
closes the log artifact and clears `label` — but the early-return and
exceptional paths keep `label`. -/
theorem c8_exit_cleanup (env : Env) (now : Int) (status0 : LoggingStatus)
    (fs0 : String → Option String) (duration rateNum rateDen : Int)
    (label clock_time start_date : String) :
    (execute_logging env now status0 fs0 duration rateNum rateDen label clock_time
      start_date).ledOn = false ∧
    (execute_logging env now status0 fs0 duration rateNum rateDen label clock_time
      start_date).status.active = false ∧
    ((execute_logging env now status0 fs0 duration rateNum rateDen label clock_time
        start_date).exit = ExitKind.completed →
      (execute_logging env now status0 fs0 duration rateNum rateDen label clock_time
        start_date).fileClosed = true ∧
      (execute_logging env now status0 fs0 duration rateNum rateDen label clock_time
        start_date).status.label = "") :=
  execute_logging_exit env now status0 fs0 duration rateNum rateDen label clock_time
    start_date

/-- Witness for C8 (amended) at a concrete completed run. -/
theorem c8_exit_cleanup_witness :
    (execute_logging envReadFail 0 logging_status_init emptyFs 1 1 1 "t" "12:00"
        "2024-01-01").ledOn = false ∧
    (execute_logging envReadFail 0 logging_status_init emptyFs 1 1 1 "t" "12:00"
        "2024-01-01").status.active = false ∧
    (execute_logging envReadFail 0 logging_status_init emptyFs 1 1 1 "t" "12:00"
        "2024-01-01").fileClosed = true ∧
    (execute_logging envReadFail 0 logging_status_init emptyFs 1 1 1 "t" "12:00"
        "2024-01-01").status.label = "" := by
  have h := c8_exit_cleanup envReadFail 0 logging_status_init emptyFs 1 1 1 "t" "12:00"
    "2024-01-01"
  exact ⟨h.1, h.2.1, (h.2.2 (by decide)).1, (h.2.2 (by decide)).2⟩

/-! ## C7 -/

/-- C7 counterexample: in a concrete batch run the session state
observed during each of the three inter-run gaps has `active = false`:
the state is idle between sub-runs, contradicting the claim that it is
never idle before sub-run 4 completes. -/
theorem c7_counterexample :
    (record_batch_data (fun _ => envReadFail) 0 logging_status_init emptyFs 1 1 1 "b"
        "12:00" "2024-01-01").map (fun r => r.gapStatuses.map (·.active)) =
      some [false, false, false] := by decide

/-- C7 (amended): each sub-run's `execute_logging` clears `active` on
its own completion, so SessionState is idle during every 2-second gap
between sub-runs; the orchestrator's final clear (after sub-run 4) is
redundant for `active`. -/
theorem c7_idle_between_subruns (envs : Nat → Env) (now : Int) (status0 : LoggingStatus)
    (fs0 : String → Option String) (duration rateNum rateDen : Int)
    (label clock_time start_date : String) (r : BatchResult)
    (h : record_batch_data envs now status0 fs0 duration rateNum rateDen label clock_time
      start_date = some r) :
    (∀ s ∈ r.gapStatuses, s.active = false) ∧
    r.finalStatus.active = false ∧ r.finalStatus.label = "" := by
  unfold record_batch_data at h
  rcases ht : parseTime clock_time with _ | hm
  · rw [ht] at h
    simp at h
  · rw [ht] at h
    dsimp only at h
    rw [Option.some.injEq] at h
    subst h
    refine ⟨?_, rfl, rfl⟩
    intro s hs
    simp only [List.mem_cons, List.not_mem_nil, or_false] at hs
    rcases hs with rfl | rfl | rfl
    · exact (execute_logging_exit _ _ _ _ _ _ _ _ _ _).2.1
    · exact (execute_logging_exit _ _ _ _ _ _ _ _ _ _).2.1
    · exact (execute_logging_exit _ _ _ _ _ _ _ _ _ _).2.1

/-- Witness for C7 (amended) at a concrete batch run. -/
theorem c7_idle_between_subruns_witness :
    ((record_batch_data (fun _ => envReadFail) 0 logging_status_init emptyFs 1 1 1 "b"
        "12:00" "2024-01-01").get (by decide)).finalStatus.active = false ∧
    ((record_batch_data (fun _ => envReadFail) 0 logging_status_init emptyFs 1 1 1 "b"
        "12:00" "2024-01-01").get (by decide)).finalStatus.label = "" ∧
    (((record_batch_data (fun _ => envReadFail) 0 logging_status_init emptyFs 1 1 1 "b"
        "12:00" "2024-01-01").get (by decide)).gapStatuses.getD 0
      logging_status_init).active = false := by
  have h := c7_idle_between_subruns (fun _ => envReadFail) 0 logging_status_init emptyFs
    1 1 1 "b" "12:00" "2024-01-01" _ (Option.some_get (by decide)).symm
  exact ⟨h.2.1, h.2.2, h.1 _ (by decide)⟩

/-! ## C10 -/

/-- C10: starting a session whose `logs/<label>.csv` already exists
truncates it: whatever the prior file system held at that path, after
a successful header write (mode "w") the file holds exactly the new
header followed by this session's appended rows. -/
theorem c10_truncate_on_reuse (env : Env) (now : Int) (status0 : LoggingStatus)
    (fs0 : String → Option String) (duration rateNum rateDen : Int)
    (label clock_time start_date : String) (y mo d hh mm : Int)
    (hd : parseDate start_date = some (y, mo, d))
    (ht : parseTime clock_time = some (hh, mm))
    (hr : rateNum ≠ 0) (hw : env.headerWriteOk = true) :
    (execute_logging env now status0 fs0 duration rateNum rateDen label clock_time
        start_date).fs (logPath label) =
      some (csv_header_str env.capsensePresent ++
        String.join (execute_logging env now status0 fs0 duration rateNum rateDen label
          clock_time start_date).rows) := by
  unfold execute_logging
  rw [hd, ht]
  dsimp only
  rw [if_neg hr, if_neg (show ¬(env.headerWriteOk = false) by simp [hw])]
  by_cases ha : env.appendOpenOk = false
  · rw [if_pos ha]
    simp [String.join]
  · rw [if_neg ha]
    dsimp only
    exact runLoop_fs env _ _ _ _ _ (by simp [String.join])

/-- Witness for C10 at a file system already holding old content at
the label's path. -/
theorem c10_truncate_on_reuse_witness :
    (execute_logging envReadFail 0 logging_status_init
        (fun q => if q = logPath "t" then some "OLD CONTENT" else none) 1 1 1 "t"
        "12:00" "2024-01-01").fs (logPath "t") =
      some (csv_header_str envReadFail.capsensePresent ++
        String.join (execute_logging envReadFail 0 logging_status_init
          (fun q => if q = logPath "t" then some "OLD CONTENT" else none) 1 1 1 "t"
          "12:00" "2024-01-01").rows) :=
  c10_truncate_on_reuse envReadFail 0 logging_status_init
    (fun q => if q = logPath "t" then some "OLD CONTENT" else none) 1 1 1 "t" "12:00"
    "2024-01-01" 2024 1 1 12 0 (by decide) (by decide) (by decide) (by decide)

/-! ## C6 -/

/-- C6: with positive rate and duration and working file operations,
`total_samples` is the floor of `duration_s * sample_rate_hz` (the
float carried exactly as `rateNum / rateDen`), at most that many rows
are appended, the run completes, and a zero `total_samples` yields a
header-only file with no data rows. -/
theorem c6_total_samples_bound (env : Env) (now : Int) (status0 : LoggingStatus)
    (fs0 : String → Option String) (duration rateNum rateDen : Int)
    (label clock_time start_date : String) (y mo d hh mm : Int)
    (hd : parseDate start_date = some (y, mo, d))
    (ht : parseTime clock_time = some (hh, mm))
    (hdur : 0 < duration) (hrn : 0 < rateNum) (hrd : 0 < rateDen)
    (hw : env.headerWriteOk = true) (ha : env.appendOpenOk = true) :
    (execute_logging env now status0 fs0 duration rateNum rateDen label clock_time
        start_date).total_samples =
      ⌊(duration : ℚ) * ((rateNum : ℚ) / (rateDen : ℚ))⌋ ∧
    (execute_logging env now status0 fs0 duration rateNum rateDen label clock_time
        start_date).rows.length ≤
      (execute_logging env now status0 fs0 duration rateNum rateDen label clock_time
        start_date).total_samples.toNat ∧
    (execute_logging env now status0 fs0 duration rateNum rateDen label clock_time
      start_date).exit = ExitKind.completed ∧
    ((execute_logging env now status0 fs0 duration rateNum rateDen label clock_time
        start_date).total_samples = 0 →
      (execute_logging env now status0 fs0 duration rateNum rateDen label clock_time
        start_date).rows = [] ∧
      (execute_logging env now status0 fs0 duration rateNum rateDen label clock_time
        start_date).header = some (csv_header_str env.capsensePresent)) := by
  unfold execute_logging
  rw [hd, ht]
  dsimp only
  rw [if_neg (ne_of_gt hrn), if_neg (show ¬(env.headerWriteOk = false) by simp [hw]),
      if_neg (show ¬(env.appendOpenOk = false) by simp [ha])]
  dsimp only
  refine ⟨?_, ?_, rfl, ?_⟩
  · rw [tdiv_eq_rat_floor _ _ (by positivity) hrd]
    congr 1
    push_cast
    ring
  · exact (runLoop_rows_le env _ _ _ _).trans (by simp)
  · intro h0
    rw [h0]
    exact ⟨rfl, rfl⟩

/-- Witness for C6 at duration 7 and sample rate 1/2. -/
theorem c6_total_samples_bound_witness :
    (execute_logging envReadFail 0 logging_status_init emptyFs 7 1 2 "t" "12:00"
        "2024-01-01").total_samples = ⌊(7 : ℚ) * ((1 : ℚ) / (2 : ℚ))⌋ ∧
    (execute_logging envReadFail 0 logging_status_init emptyFs 7 1 2 "t" "12:00"
        "2024-01-01").rows.length ≤
      (execute_logging envReadFail 0 logging_status_init emptyFs 7 1 2 "t" "12:00"
        "2024-01-01").total_samples.toNat ∧
    (execute_logging envReadFail 0 logging_status_init emptyFs 7 1 2 "t" "12:00"
      "2024-01-01").exit = ExitKind.completed := by
  have h := c6_total_samples_bound envReadFail 0 logging_status_init emptyFs 7 1 2 "t"
    "12:00" "2024-01-01" 2024 1 1 12 0 (by decide) (by decide) (by decide) (by decide)
    (by decide) (by decide) (by decide)
  exact ⟨h.1, h.2.1, h.2.2.1⟩

/-! ## C4 -/

/-- C4 counterexample: sensor failures do not increment the
consecutive-error counter.  In a 7-sample run in which every tick's
BME read and capsense read fail, the sentinels are written, every row
write succeeds and resets the counter (main.py line 458): all seven
ticks execute their bodies, `failed_samples` stays 0 and the loop
never aborts — contradicting the claim that five consecutive sensor
failures abort the session before the sixth tick. -/
theorem c4_counterexample :
    (execute_logging envReadFail 0 logging_status_init emptyFs 7 1 1 "t" "12:00"
      "2024-01-01").successful_samples = 7 ∧
    (execute_logging envReadFail 0 logging_status_init emptyFs 7 1 1 "t" "12:00"
      "2024-01-01").failed_samples = 0 ∧
    (execute_logging envReadFail 0 logging_status_init emptyFs 7 1 1 "t" "12:00"
      "2024-01-01").abortedEarly = false ∧
    (execute_logging envReadFail 0 logging_status_init emptyFs 7 1 1 "t" "12:00"
      "2024-01-01").ticksEntered = [0, 1, 2, 3, 4, 5, 6] ∧
    (execute_logging envReadFail 0 logging_status_init emptyFs 7 1 1 "t" "12:00"
      "2024-01-01").rows.length = 7 :=
  ⟨by decide, by decide, by decide, by decide, by decide⟩

/-- C4 (amended): the consecutive-error counter is bumped by exactly
one on a failed file write or an exception escaping the tick body —
sensor failures are converted to sentinel strings and never reach it —
and reset to zero on a successful write; and in any run whose first
five ticks fail that way, with more than five samples requested,
exactly ticks 0..4 execute their bodies (the sixth never performs its
read-and-write work), the loop aborts early, and the run still exits
on the normal path (nothing is raised to the caller). -/
theorem c4_write_failure_circuit_breaker :
    (∀ (env : Env) (p : TickParams) (i : Nat) (st : LoopState),
      (runTick env p i st).consecutive_errors =
        if env.tickRaises i = true ∨ env.writeOk i = false then
          st.consecutive_errors + 1
        else 0) ∧
    (∀ (env : Env) (now : Int) (status0 : LoggingStatus)
      (fs0 : String → Option String) (duration rateNum rateDen : Int)
      (label clock_time start_date : String) (y mo d hh mm : Int),
      parseDate start_date = some (y, mo, d) →
      parseTime clock_time = some (hh, mm) →
      rateNum ≠ 0 → env.headerWriteOk = true → env.appendOpenOk = true →
      ((List.range 5).all (fun i => env.tickRaises i || !(env.writeOk i))) = true →
      5 < Int.tdiv (duration * rateNum) rateDen →
      (execute_logging env now status0 fs0 duration rateNum rateDen label clock_time
        start_date).ticksEntered = [0, 1, 2, 3, 4] ∧
      (execute_logging env now status0 fs0 duration rateNum rateDen label clock_time
        start_date).abortedEarly = true ∧
      (execute_logging env now status0 fs0 duration rateNum rateDen label clock_time
        start_date).exit = ExitKind.completed) := by
  constructor
  · intro env p i st
    by_cases h : env.tickRaises i = true ∨ env.writeOk i = false
    · rw [runTick_fail env p i st h, if_pos h]
    · rw [if_neg h]
      push_neg at h
      unfold runTick
      rw [if_neg h.1]
      dsimp only
      rw [if_pos (show env.writeOk i = true by
        rcases hw2 : env.writeOk i with _ | _
        · exact absurd hw2 h.2
        · rfl)]
  · intro env now status0 fs0 duration rateNum rateDen label clock_time start_date
      y mo d hh mm hd ht hr hw ha hfail htot
    unfold execute_logging
    rw [hd, ht]
    dsimp only
    rw [if_neg hr, if_neg (show ¬(env.headerWriteOk = false) by simp [hw]),
        if_neg (show ¬(env.appendOpenOk = false) by simp [ha])]
    dsimp only
    obtain ⟨k, hk⟩ : ∃ k, (Int.tdiv (duration * rateNum) rateDen).toNat = k + 6 :=
      ⟨(Int.tdiv (duration * rateNum) rateDen).toNat - 6, by omega⟩
    rw [hk, runLoop_five_fail env _ k _ hfail]
    exact ⟨rfl, rfl, rfl⟩

/-- Witness for C4 (amended): seven requested samples with the first
five writes failing. -/
theorem c4_write_failure_circuit_breaker_witness :
    (execute_logging envWriteFail5 0 logging_status_init emptyFs 7 1 1 "t" "12:00"
      "2024-01-01").ticksEntered = [0, 1, 2, 3, 4] ∧
    (execute_logging envWriteFail5 0 logging_status_init emptyFs 7 1 1 "t" "12:00"
      "2024-01-01").abortedEarly = true ∧
    (execute_logging envWriteFail5 0 logging_status_init emptyFs 7 1 1 "t" "12:00"
      "2024-01-01").exit = ExitKind.completed :=
  c4_write_failure_circuit_breaker.2 envWriteFail5 0 logging_status_init emptyFs 7 1 1
    "t" "12:00" "2024-01-01" 2024 1 1 12 0 (by decide) (by decide) (by decide)
    (by decide) (by decide) (by decide) (by decide)

end PicoLogger
